import Mathlib

/-!
Verification development for a Spark-based ETL job (`etl.py`).

The job reads song-catalog JSON and event-log JSON, derives five tables
(songs, artists, users, time, songplays) via column projection, full-row
deduplication (`distinct()`), a per-row timestamp derivation, and one
LEFT OUTER JOIN, and writes each table with `mode='overwrite'`.

Shallow embedding notes:
* Tables are Lean lists of row structures; `distinct()` is `List.dedup`
  (the engine gives no ordering guarantee, so every statement below treats
  outputs up to membership/count, never order).
* JSON-inferred nullable columns are `Option` types.  Floating-point
  payload columns (`duration`, `artist_latitude`, `artist_longitude`) are
  carried opaquely by the job — never computed with, only projected and
  compared for equality — so they are modelled as `Option Int` payloads
  with decidable equality.
* SQL three-valued comparison (`events.song = songs.title`,
  `col('page') == 'NextSong'`) is modelled by `sqlStrEq`: a comparison
  involving NULL is never true, hence filters drop it and joins reject it.
* `datetime.fromtimestamp(x / 1000.0)` produces a local wall-clock
  timestamp; the local zone is modelled as a fixed UTC offset `tz` in
  seconds, constant for the process.  The resulting timestamp is
  represented as microseconds since the (local) epoch, which is exact for
  millisecond inputs.
-/

/-- One song-catalog JSON record (fields the job reads). -/
structure SongRecord where
  song_id : Option String
  title : Option String
  artist_id : Option String
  year : Option Int
  duration : Option Int
  artist_name : Option String
  artist_location : Option String
  artist_latitude : Option Int
  artist_longitude : Option Int
deriving DecidableEq

/-- One event-log JSON record (fields the job reads).  `ts` is epoch
milliseconds; the udf would fault on a NULL `ts`, so it is non-optional. -/
structure LogRecord where
  userId : Option String
  firstName : Option String
  lastName : Option String
  gender : Option String
  level : Option String
  page : Option String
  ts : Int
  song : Option String
  artist : Option String
  sessionId : Option Int
  location : Option String
  userAgent : Option String
deriving DecidableEq

/-- Row of the `songs` table: `df.select('song_id','title','artist_id','year','duration')`. -/
structure SongsRow where
  song_id : Option String
  title : Option String
  artist_id : Option String
  year : Option Int
  duration : Option Int
deriving DecidableEq

/-- Row of the `artists` table. -/
structure ArtistsRow where
  artist_id : Option String
  artist_name : Option String
  artist_location : Option String
  artist_latitude : Option Int
  artist_longitude : Option Int
deriving DecidableEq

/-- Row of the `users` table: `selectExpr('userId AS user_id', ...)`. -/
structure UsersRow where
  user_id : Option String
  first_name : Option String
  last_name : Option String
  gender : Option String
  level : Option String
deriving DecidableEq

/-- Row of the `time` table. -/
structure TimeRow where
  ts_key : Int
  start_time : Int
  hour : Int
  day : Int
  week : Int
  month : Int
  year : Int
  weekday : Int
deriving DecidableEq

/-- Row of the `songplays` table. -/
structure SongplayRow where
  ts_key : Int
  start_time : Int
  user_id : Option String
  level : Option String
  song_id : Option String
  artist_id : Option String
  session_id : Option Int
  location : Option String
  user_agent : Option String
deriving DecidableEq

/-- SQL three-valued string equality collapsed to "is the comparison true":
NULL compared with anything (including NULL) is not true. -/
def sqlStrEq : Option String → Option String → Bool
  | some a, some b => a == b
  | _, _ => false

/-- Embeds `df.filter(col('page') == 'NextSong')`: keep rows whose `page` compares
equal to the literal; a NULL `page` fails the comparison and is dropped. -/
def filterNextSong (df : List LogRecord) : List LogRecord :=
  df.filter (fun e => sqlStrEq e.page (some "NextSong"))

/-- Projection behind `songs_table`. -/
def songsProj (r : SongRecord) : SongsRow :=
  { song_id := r.song_id, title := r.title, artist_id := r.artist_id,
    year := r.year, duration := r.duration }

/-- Embeds `songs_table = df.select(...).distinct()`. -/
def songs_table (df : List SongRecord) : List SongsRow :=
  (df.map songsProj).dedup

/-- Projection behind `artists_table`. -/
def artistsProj (r : SongRecord) : ArtistsRow :=
  { artist_id := r.artist_id, artist_name := r.artist_name,
    artist_location := r.artist_location, artist_latitude := r.artist_latitude,
    artist_longitude := r.artist_longitude }

/-- Embeds `artists_table = df.select(...).distinct()`. -/
def artists_table (df : List SongRecord) : List ArtistsRow :=
  (df.map artistsProj).dedup

/-- Projection behind `users_table` (`selectExpr` renames). -/
def usersProj (e : LogRecord) : UsersRow :=
  { user_id := e.userId, first_name := e.firstName, last_name := e.lastName,
    gender := e.gender, level := e.level }

/-- Embeds `users_table = df.selectExpr(...).distinct()`, on the page-filtered df. -/
def users_table (logs : List LogRecord) : List UsersRow :=
  ((filterNextSong logs).map usersProj).dedup

/-!  Timestamp derivation and the engine's calendar functions.

`get_timestamp = udf(lambda x: datetime.fromtimestamp(x / 1000.0), TimestampType())`
turns epoch milliseconds into a local wall-clock timestamp.  We represent
that timestamp as microseconds since the local epoch (`tz` = fixed UTC
offset of the process's zone, in seconds).  `hour/dayofmonth/weekofyear/
month/year/dayofweek` are the engine's calendar functions, modelled with
exact civil-calendar arithmetic (Euclidean `ediv`/`emod`, i.e. floor
division for the positive divisors used here). -/

/-- Models `datetime.fromtimestamp(ts / 1000.0)` at fixed zone offset `tz` seconds:
local-epoch microseconds. -/
def get_timestamp (tz : Int) (ts : Int) : Int :=
  ts * 1000 + tz * 1000000

/-- Whole days since the epoch of a local timestamp (microseconds). -/
def tsDays (t : Int) : Int :=
  (t.ediv 1000000).ediv 86400

/-- Civil date (year, month, day) from days since 1970-01-01
(proleptic Gregorian calendar). -/
def civilFromDays (z0 : Int) : Int × Int × Int :=
  let z := z0 + 719468
  let era := z.ediv 146097
  let doe := z - era * 146097
  let yoe := (doe - doe.ediv 1460 + doe.ediv 36524 - doe.ediv 146096).ediv 365
  let y := yoe + era * 400
  let doy := doe - (365 * yoe + yoe.ediv 4 - yoe.ediv 100)
  let mp := (5 * doy + 2).ediv 153
  let d := doy - (153 * mp + 2).ediv 5 + 1
  let m := mp + (if mp < 10 then 3 else -9)
  (y + (if m ≤ 2 then 1 else 0), m, d)

/-- Days since the epoch of a civil date (inverse direction, used for
day-of-year inside week-of-year). -/
def daysFromCivil (y m d : Int) : Int :=
  let yy := y - (if m ≤ 2 then 1 else 0)
  let era := yy.ediv 400
  let yoe := yy - era * 400
  let doy := (153 * (m + (if 2 < m then -3 else 9)) + 2).ediv 5 + d - 1
  let doe := yoe * 365 + yoe.ediv 4 - yoe.ediv 100 + doy
  era * 146097 + doe - 719468

/-- Engine `hour(timestamp)`. -/
def sparkHour (t : Int) : Int :=
  ((t.ediv 1000000).emod 86400).ediv 3600

/-- Engine `dayofmonth(timestamp)`. -/
def sparkDayOfMonth (t : Int) : Int :=
  (civilFromDays (tsDays t)).2.2

/-- Engine `month(timestamp)`. -/
def sparkMonth (t : Int) : Int :=
  (civilFromDays (tsDays t)).2.1

/-- Engine `year(timestamp)`. -/
def sparkYear (t : Int) : Int :=
  (civilFromDays (tsDays t)).1

/-- Engine `dayofweek(timestamp)`: 1 = Sunday … 7 = Saturday
(1970-01-01 was a Thursday, day 0 ↦ 5). -/
def sparkDayOfWeek (t : Int) : Int :=
  (tsDays t + 4).emod 7 + 1

/-- Number of ISO weeks in ISO year `y` (52 or 53). -/
def isoWeeksInYear (y : Int) : Int :=
  let p : Int → Int := fun yy => (yy + yy.ediv 4 - yy.ediv 100 + yy.ediv 400).emod 7
  52 + (if p y = 4 ∨ p (y - 1) = 3 then 1 else 0)

/-- Engine `weekofyear(timestamp)`: ISO-8601 week number. -/
def sparkWeekOfYear (t : Int) : Int :=
  let z := tsDays t
  let y := (civilFromDays z).1
  let doy := z - daysFromCivil y 1 1 + 1
  let isoDow := (z + 3).emod 7 + 1
  let w := (doy - isoDow + 10).ediv 7
  if w < 1 then isoWeeksInYear (y - 1)
  else if isoWeeksInYear y < w then 1
  else w

/-- The six calendar parts the `time` table derives from `start_time`. -/
def calendar_parts (t : Int) : Int × Int × Int × Int × Int × Int :=
  (sparkHour t, sparkDayOfMonth t, sparkWeekOfYear t, sparkMonth t,
   sparkYear t, sparkDayOfWeek t)

/-- One row of the `time` table for a retained event:
`selectExpr('ts AS ts_key', 'timestamp AS start_time', 'hour(timestamp) AS hour', ...)`. -/
def time_row (tz : Int) (e : LogRecord) : TimeRow :=
  let t := get_timestamp tz e.ts
  { ts_key := e.ts, start_time := t, hour := sparkHour t,
    day := sparkDayOfMonth t, week := sparkWeekOfYear t, month := sparkMonth t,
    year := sparkYear t, weekday := sparkDayOfWeek t }

/-- Embeds `time_table = df.selectExpr(...).distinct()`, on the page-filtered df. -/
def time_table (tz : Int) (logs : List LogRecord) : List TimeRow :=
  ((filterNextSong logs).map (time_row tz)).dedup

/-!  The songplays LEFT OUTER JOIN.

```
SELECT ts AS ts_key, timestamp AS start_time, userId AS user_id, level,
       song_id, artist_id, sessionId AS session_id, location,
       userAgent AS user_agent
FROM events_table events LEFT JOIN songs_table songs
ON events.song = songs.title AND events.artist = songs.artist_name
```
`events_table` is the page-filtered log df with the derived `timestamp`
column; `songs_table` here is the re-loaded raw song catalog. -/

/-- The join's ON condition (SQL semantics: NULL matches nothing). -/
def song_match (e : LogRecord) (s : SongRecord) : Bool :=
  sqlStrEq e.song s.title && sqlStrEq e.artist s.artist_name

/-- Assemble one output row of `songplays` from an event and the (possibly
absent) matched catalog columns. -/
def mkSongplay (tz : Int) (e : LogRecord) (sid aid : Option String) : SongplayRow :=
  { ts_key := e.ts, start_time := get_timestamp tz e.ts, user_id := e.userId,
    level := e.level, song_id := sid, artist_id := aid,
    session_id := e.sessionId, location := e.location, user_agent := e.userAgent }

/-- Rows of `songplays` contributed by one event: one row per matching
catalog row, or a single row with NULL `song_id`/`artist_id` when no
catalog row matches (left-outer retention). -/
def songplays_for (tz : Int) (e : LogRecord) (songs : List SongRecord) : List SongplayRow :=
  let ms := songs.filter (song_match e)
  if ms.isEmpty then [mkSongplay tz e none none]
  else ms.map (fun s => mkSongplay tz e s.song_id s.artist_id)

/-- The `songplays` table: left outer join of the filtered events with the
song catalog, projected to the final schema.  No `distinct()` is applied. -/
def songplays_table (tz : Int) (logs : List LogRecord) (songs : List SongRecord) : List SongplayRow :=
  (filterNextSong logs).flatMap (fun e => songplays_for tz e songs)

/-!  Storage, reads and writes, and the two transform procedures.

Object storage is a map from path to written table contents (a list of
rows tagged by table kind).  `write.parquet(path, mode='overwrite')`
replaces the contents at `path`.  Input reads go through two environments
`fsS`/`fsL` (path pattern ↦ parsed records); both transforms also return
the list of path patterns they read, in order, so that read behaviour is
part of the embedding. -/

/-- A stored row of any of the five output tables. -/
inductive PRow where
  | song : SongsRow → PRow
  | artist : ArtistsRow → PRow
  | user : UsersRow → PRow
  | time : TimeRow → PRow
  | play : SongplayRow → PRow
deriving DecidableEq

/-- Object storage: path ↦ current contents. -/
def Storage : Type := String → List PRow

/-- The two write modes of the engine's parquet writer. -/
inductive WriteMode where
  | overwrite
  | append
deriving DecidableEq

/-- Models `df.write.parquet(path, mode=...)`: overwrite replaces the contents at
`path`; append would concatenate onto them. -/
def write_parquet (path : String) (rows : List PRow) (mode : WriteMode)
    (st : Storage) : Storage :=
  fun p => if p = path then
    (match mode with
     | .overwrite => rows
     | .append => st p ++ rows)
  else st p

/-- Embeds `process_song_data(spark, input_data, output_data)`: read the song
catalog at the fixed glob, write `songs` and `artists` (both overwrite).
Returns (paths read, storage after writes). -/
def process_song_data (fsS : String → List SongRecord)
    (input_data output_data : String) (st : Storage) : List String × Storage :=
  let song_data := input_data ++ "song_data/A/*/*/*.json"
  let df := fsS song_data
  let st1 := write_parquet (output_data ++ "songstables/")
    ((songs_table df).map PRow.song) .overwrite st
  let st2 := write_parquet (output_data ++ "artiststables/")
    ((artists_table df).map PRow.artist) .overwrite st1
  ([song_data], st2)

/-- Embeds `process_log_data(spark, input_data, output_data)`: read the event log
at the fixed glob, filter to NextSong, write `users`, `time`, then re-read
the song catalog (same fixed glob as `process_song_data`) and write
`songplays` (all overwrite). -/
def process_log_data (fsS : String → List SongRecord)
    (fsL : String → List LogRecord) (tz : Int)
    (input_data output_data : String) (st : Storage) : List String × Storage :=
  let log_data := input_data ++ "log_data/2018/11/*.json"
  let song_data := input_data ++ "song_data/A/*/*/*.json"
  let df := fsL log_data
  let st1 := write_parquet (output_data ++ "userstables/")
    ((users_table df).map PRow.user) .overwrite st
  let st2 := write_parquet (output_data ++ "timetables/")
    ((time_table tz df).map PRow.time) .overwrite st1
  let song_df := fsS song_data
  let st3 := write_parquet (output_data ++ "songplays/")
    ((songplays_table tz df song_df).map PRow.play) .overwrite st2
  ([log_data, song_data], st3)

/-- The `main` body after session creation: run the song transform, then the
log transform, threading storage; collect the reads of both in order. -/
def run_job (fsS : String → List SongRecord) (fsL : String → List LogRecord)
    (tz : Int) (input_data output_data : String) (st : Storage) :
    List String × Storage :=
  let r1 := process_song_data fsS input_data output_data st
  let r2 := process_log_data fsS fsL tz input_data output_data r1.2
  (r1.1 ++ r2.1, r2.2)

/-- The fixed input root wired in `main`. -/
def main_input_data : String := "s3a://udacity-dend/"

/-- The fixed output root wired in `main`. -/
def main_output_data : String := "s3a://dend-data-lake-p4/sparkify/"

/-!  Configuration loading (module top level, before `main`).

```
config = configparser.ConfigParser()
config.read('dl.cfg')
os.environ['AWS_ACCESS_KEY_ID'] = config.get('AWS', 'AWS_ACCESS_KEY_ID')
os.environ['AWS_SECRET_ACCESS_KEY'] = config.get('AWS', 'AWS_SECRET_ACCESS_KEY')
```
`configparser.read` silently ignores a missing file (yielding an empty
parser); `get` then raises `NoSectionError`/`NoOptionError` — both
subclasses of `configparser.Error`, the job's ConfigError.  Either way the
exception occurs at import time, before `create_spark_session` runs. -/

/-- The configuration errors `config.get` can raise. -/
inductive ConfigError where
  | noSection : String → ConfigError
  | noOption : String → String → ConfigError
deriving DecidableEq

/-- A parsed key-value file with sections. -/
structure ConfigParser where
  sections : List (String × List (String × String))
deriving DecidableEq

/-- Models `config.read('dl.cfg')`: a missing file is silently ignored, leaving
the parser empty. -/
def configRead (file : Option ConfigParser) : ConfigParser :=
  file.getD ⟨[]⟩

/-- Models `config.get(section, option)`: `NoSectionError` when the section is
absent, `NoOptionError` when the option is absent from the section. -/
def configGet (cfg : ConfigParser) (sec opt : String) : Except ConfigError String :=
  match cfg.sections.lookup sec with
  | none => .error (.noSection sec)
  | some kvs =>
    match kvs.lookup opt with
    | none => .error (.noOption sec opt)
    | some v => .ok v

/-- Process environment. -/
def Env : Type := String → Option String

/-- Models the assignment `os.environ[k] = v`. -/
def setEnv (env : Env) (k v : String) : Env :=
  fun k' => if k' = k then some v else env k'

/-- The module-level configuration block: read `dl.cfg`, fetch the two
required keys (failing with a `ConfigError` if either is absent), and set
both credentials into the process environment. -/
def module_init (file : Option ConfigParser) (env : Env) : Except ConfigError Env := do
  let cfg := configRead file
  let ak ← configGet cfg "AWS" "AWS_ACCESS_KEY_ID"
  let sk ← configGet cfg "AWS" "AWS_SECRET_ACCESS_KEY"
  return setEnv (setEnv env "AWS_ACCESS_KEY_ID" ak) "AWS_SECRET_ACCESS_KEY" sk

/-!  Engine session factory.

`create_spark_session` calls `SparkSession.builder.config(...).getOrCreate()`.
`getOrCreate` is the engine's process-wide singleton accessor: it returns
the already-active session if one exists and only otherwise creates one.
The engine itself is an external dependency; its `getOrCreate` contract is
modelled from the spec (4.2: "repeated calls within one process return the
same underlying handle"). -/

/-- Process-wide engine state: the active session handle, if any, and the
next fresh handle id. -/
structure SparkProcState where
  active : Option Nat
  nextId : Nat
deriving DecidableEq

/-- Modelled from the spec: the engine's `builder.getOrCreate()` — returns
the active session when one exists, else creates a fresh one and records
it as the process-wide active session.  The `config("spark.jars.packages",
"org.apache.hadoop:hadoop-aws:2.7.0")` call affects connector resolution,
not handle identity, so it does not appear in the state. -/
def getOrCreate (st : SparkProcState) : Nat × SparkProcState :=
  match st.active with
  | some h => (h, st)
  | none => (st.nextId, { active := some st.nextId, nextId := st.nextId + 1 })

/-- Embeds `create_spark_session()`: builder plus `getOrCreate`. -/
def create_spark_session (st : SparkProcState) : Nat × SparkProcState :=
  getOrCreate st

/-- The handles returned by `n` successive `create_spark_session()` calls
in one process. -/
def repeated_calls : Nat → SparkProcState → List Nat
  | 0, _ => []
  | n + 1, st =>
    let r := create_spark_session st
    r.1 :: repeated_calls n r.2

/-- Process state for the whole program: environment plus the number of
engine sessions ever created. -/
structure ProcState where
  env : Env
  sessionsStarted : Nat

/-- Program startup: the module-level configuration block runs first; only
if it succeeds does `main` create the engine session.  A `ConfigError`
therefore aborts before engine startup. -/
def program_startup (file : Option ConfigParser) (st : ProcState) :
    Except ConfigError ProcState := do
  let env' ← module_init file st.env
  return { env := env', sessionsStarted := st.sessionsStarted + 1 }

/-!  Concrete fixtures, used by counterexamples and witnesses. -/

/-- A NextSong event (the spec's example scenario, with `ts = 0` for light
kernel evaluation). -/
def evNext : LogRecord :=
  { userId := some "7", firstName := some "Jo", lastName := some "Doe",
    gender := some "F", level := some "free", page := some "NextSong",
    ts := 0, song := some "X", artist := some "ArtistA",
    sessionId := some 5, location := some "LA", userAgent := some "UA" }

/-- The same interaction logged with a different user: same `ts`, other
fields differ. -/
def evNextOtherUser : LogRecord :=
  { evNext with userId := some "8", firstName := some "Al", sessionId := some 6 }

/-- An event of a different page type. -/
def evHome : LogRecord :=
  { evNext with page := some "Home" }

/-- A NextSong event whose `song` field is NULL. -/
def evNullSong : LogRecord :=
  { evNext with song := none, artist := some "ArtistA" }

/-- A catalog record matching `evNext` on title and artist name. -/
def songX1 : SongRecord :=
  { song_id := some "S1", title := some "X", artist_id := some "A1",
    year := some 2000, duration := some 123, artist_name := some "ArtistA",
    artist_location := none, artist_latitude := none, artist_longitude := none }

/-- A second catalog record with the same title and artist name but a
different song id: both match `evNext`. -/
def songX2 : SongRecord :=
  { songX1 with song_id := some "S2", artist_id := some "A2" }

/-- A catalog record whose `title` is NULL. -/
def songNullTitle : SongRecord :=
  { songX1 with song_id := some "S3", title := none }

/-- A configuration file holding both required keys. -/
def cfgFull : ConfigParser :=
  ⟨[("AWS", [("AWS_ACCESS_KEY_ID", "AKIA"), ("AWS_SECRET_ACCESS_KEY", "SECRET")])]⟩

/-- An empty process environment. -/
def emptyEnv : Env := fun _ => none

/-!  Theorems. -/

/-- Helper: a NULL left operand never satisfies the SQL comparison. -/
theorem sqlStrEq_none_left (x : Option String) : sqlStrEq none x = false := by
  cases x <;> rfl

/-- Helper: filtering a cons whose head fails the page test drops the head. -/
theorem filterNextSong_cons_of_ne (e : LogRecord) (events : List LogRecord)
    (h : e.page ≠ some "NextSong") :
    filterNextSong (e :: events) = filterNextSong events := by
  have hb : sqlStrEq e.page (some "NextSong") = false := by
    cases hp : e.page with
    | none => exact sqlStrEq_none_left _
    | some a =>
      simp only [sqlStrEq, beq_eq_false_iff_ne, ne_eq]
      intro hEq
      exact h (by rw [hp, hEq])
  simp [filterNextSong, List.filter_cons, hb]

/-- C3: for the songs, artists, users and time tables, deduplication is
exact full-row equality — every row value occurring in the pre-dedup
projected multiset occurs exactly once in the output, and a row value not
occurring there does not appear, so fully identical duplicates collapse to
one survivor while rows differing in any column all survive. -/
theorem distinct_full_row_dedup (songsIn : List SongRecord)
    (logsIn : List LogRecord) (tz : Int) :
    (∀ r : SongsRow, (songs_table songsIn).count r =
        if r ∈ songsIn.map songsProj then 1 else 0)
  ∧ (∀ r : ArtistsRow, (artists_table songsIn).count r =
        if r ∈ songsIn.map artistsProj then 1 else 0)
  ∧ (∀ r : UsersRow, (users_table logsIn).count r =
        if r ∈ (filterNextSong logsIn).map usersProj then 1 else 0)
  ∧ (∀ r : TimeRow, (time_table tz logsIn).count r =
        if r ∈ (filterNextSong logsIn).map (time_row tz) then 1 else 0) :=
  ⟨fun r => by simp [songs_table, List.count_dedup],
   fun r => by simp [artists_table, List.count_dedup],
   fun r => by simp [users_table, List.count_dedup],
   fun r => by simp [time_table, List.count_dedup]⟩

/-- C2: an event row whose `page` is not equal to the string NextSong
contributes no row to the users, time, or songplays outputs — the outputs
on an input extended with such a row equal the outputs without it. -/
theorem non_nextsong_row_contributes_nothing (tz : Int) (e : LogRecord)
    (events : List LogRecord) (songs : List SongRecord)
    (h : e.page ≠ some "NextSong") :
    users_table (e :: events) = users_table events
  ∧ time_table tz (e :: events) = time_table tz events
  ∧ songplays_table tz (e :: events) songs = songplays_table tz events songs := by
  have hf := filterNextSong_cons_of_ne e events h
  exact ⟨by simp [users_table, hf], by simp [time_table, hf],
         by simp [songplays_table, hf]⟩

/-- Witness for C2 at a concrete Home-page event. -/
theorem non_nextsong_row_contributes_nothing_witness :
    users_table [evHome] = users_table []
  ∧ time_table 0 [evHome] = time_table 0 []
  ∧ songplays_table 0 [evHome] [songX1] = songplays_table 0 [] [songX1] :=
  non_nextsong_row_contributes_nothing 0 evHome [] [songX1] (by decide)

/-- Helper: a call on a state with an active session returns that session
and leaves the state unchanged. -/
theorem create_spark_session_of_active (st : SparkProcState) (h : Nat)
    (ha : st.active = some h) : create_spark_session st = (h, st) := by
  simp [create_spark_session, getOrCreate, ha]

/-- Helper: after any call, the returned handle is the active session. -/
theorem create_spark_session_active (st : SparkProcState) :
    (create_spark_session st).2.active = some (create_spark_session st).1 := by
  cases ha : st.active <;> simp [create_spark_session, getOrCreate, ha]

/-- Helper: on a state whose active session is `h`, every repeated call
returns `h`. -/
theorem repeated_calls_of_active (n : Nat) (st : SparkProcState) (h : Nat)
    (ha : st.active = some h) : repeated_calls n st = List.replicate n h := by
  induction n generalizing st with
  | zero => rfl
  | succ n ih =>
    rw [repeated_calls, create_spark_session_of_active st h ha]
    rw [List.replicate_succ, ih st ha]

/-- C7: create_spark_session is idempotent within a process — a sequence of
`n` repeated calls returns the same underlying session handle every time,
namely the handle the first call returns (process-wide singleton). -/
theorem create_spark_session_singleton (n : Nat) (st : SparkProcState) :
    repeated_calls n st = List.replicate n (create_spark_session st).1 := by
  cases n with
  | zero => rfl
  | succ n =>
    rw [repeated_calls, List.replicate_succ]
    rw [repeated_calls_of_active n (create_spark_session st).2
      (create_spark_session st).1 (create_spark_session_active st)]

/-- C10: a filtered event whose `song` or `artist` field is NULL satisfies
the join condition against no catalog row (NULL never compares equal), so
it appears in songplays exactly once, with NULL `song_id` and `artist_id`,
even when the catalog contains rows whose `title` or `artist_name` is
itself NULL. -/
theorem null_fields_never_join (tz : Int) (e : LogRecord)
    (songs : List SongRecord) (h : e.song = none ∨ e.artist = none) :
    (∀ s ∈ songs, song_match e s = false)
  ∧ songplays_for tz e songs = [mkSongplay tz e none none]
  ∧ (e.page = some "NextSong" →
      songplays_table tz [e] songs = [mkSongplay tz e none none]) := by
  have hm : ∀ s, song_match e s = false := by
    intro s
    rcases h with h | h
    · simp [song_match, h, sqlStrEq_none_left]
    · simp [song_match, h, sqlStrEq_none_left]
  have hfil : songs.filter (song_match e) = [] :=
    List.filter_eq_nil_iff.2 (fun s _ => by simp [hm s])
  have hfor : songplays_for tz e songs = [mkSongplay tz e none none] := by
    simp [songplays_for, hfil]
  refine ⟨fun s _ => hm s, hfor, fun hp => ?_⟩
  have : filterNextSong [e] = [e] := by
    simp [filterNextSong, List.filter_cons, sqlStrEq, hp]
  simp [songplays_table, this, hfor]

/-- Witness for C10: a NULL-song event against a catalog that contains a
NULL-title row still produces the single unmatched row. -/
theorem null_fields_never_join_witness :
    songplays_for 0 evNullSong [songX1, songNullTitle]
      = [mkSongplay 0 evNullSong none none] :=
  (null_fields_never_join 0 evNullSong [songX1, songNullTitle]
    (Or.inl (by decide))).2.1

/-- Helper: two maps whose functions identify exactly the same pairs of
list elements have dedups of equal length. -/
theorem dedup_length_congr {α β γ : Type} [DecidableEq β] [DecidableEq γ]
    (f : α → β) (g : α → γ) (hfg : ∀ a b, f a = f b ↔ g a = g b) :
    ∀ l : List α, (l.map f).dedup.length = (l.map g).dedup.length := by
  intro l
  induction l with
  | nil => rfl
  | cons a l ih =>
    by_cases hmem : f a ∈ l.map f
    · have hmem' : g a ∈ l.map g := by
        obtain ⟨b, hb, hfb⟩ := List.mem_map.1 hmem
        exact List.mem_map.2 ⟨b, hb, (hfg b a).1 hfb⟩
      rw [List.map_cons, List.map_cons, List.dedup_cons_of_mem hmem,
        List.dedup_cons_of_mem hmem', ih]
    · have hmem' : g a ∉ l.map g := by
        intro hc
        obtain ⟨b, hb, hgb⟩ := List.mem_map.1 hc
        exact hmem (List.mem_map.2 ⟨b, hb, (hfg b a).2 hgb⟩)
      rw [List.map_cons, List.map_cons, List.dedup_cons_of_not_mem hmem,
        List.dedup_cons_of_not_mem hmem', List.length_cons, List.length_cons, ih]

/-- C9: full-row deduplication of the time table coincides with
deduplication on `ts_key` alone — two time rows are equal iff their source
events have equal `ts`, so the time output holds exactly one row per
distinct `ts` among the filtered events, and its rows are exactly the
derived rows of the filtered events. -/
theorem time_table_dedup_by_ts_key (tz : Int) (events : List LogRecord) :
    (∀ e1 e2 : LogRecord, time_row tz e1 = time_row tz e2 ↔ e1.ts = e2.ts)
  ∧ (time_table tz events).length
      = (((filterNextSong events).map LogRecord.ts).dedup).length
  ∧ (∀ r : TimeRow, r ∈ time_table tz events ↔
      ∃ e ∈ filterNextSong events, time_row tz e = r) := by
  have key : ∀ e1 e2 : LogRecord, time_row tz e1 = time_row tz e2 ↔ e1.ts = e2.ts := by
    intro e1 e2
    constructor
    · intro h
      have := congrArg TimeRow.ts_key h
      simpa [time_row] using this
    · intro h
      simp [time_row, h]
  refine ⟨key, ?_, ?_⟩
  · exact dedup_length_congr (time_row tz) LogRecord.ts key (filterNextSong events)
  · intro r
    simp [time_table, List.mem_dedup, List.mem_map]

/-- C4: the per-row timestamp derivation is a pure function of `ts` alone —
`start_time` is exactly the conversion of `ts` to a local timestamp, two
events with equal `ts` produce identical time rows regardless of every
other field, and recomputing the calendar parts of the derived timestamp
gives the same six-tuple. -/
theorem timestamp_derivation_deterministic (tz : Int) (e1 e2 : LogRecord)
    (h : e1.ts = e2.ts) :
    (time_row tz e1).start_time = get_timestamp tz e1.ts
  ∧ time_row tz e1 = time_row tz e2
  ∧ calendar_parts (get_timestamp tz e1.ts)
      = calendar_parts (get_timestamp tz e2.ts) := by
  refine ⟨rfl, ?_, by rw [h]⟩
  simp [time_row, h]

/-- Witness for C4: two concrete events with equal `ts` but different user,
name and session fields derive identical time rows. -/
theorem timestamp_derivation_deterministic_witness :
    (time_row 0 evNext).start_time = get_timestamp 0 evNext.ts
  ∧ time_row 0 evNext = time_row 0 evNextOtherUser
  ∧ calendar_parts (get_timestamp 0 evNext.ts)
      = calendar_parts (get_timestamp 0 evNextOtherUser.ts) :=
  timestamp_derivation_deterministic 0 evNext evNextOtherUser rfl

/-- Counterexample to C1 as stated: with two catalog rows sharing the same
title and artist name, one filtered event contributes two songplays rows,
so count(songplays) exceeds count(filtered events). -/
theorem songplays_count_counterexample :
    (filterNextSong [evNext]).length = 1
  ∧ (songplays_table 0 [evNext] [songX1, songX2]).length = 2 := by decide

/-- C1 (amended): when every filtered event matches at most one catalog row
on (title, artist_name), each filtered event appears exactly once in
songplays and count(songplays) equals count(filtered events); independent
of that bound, an event matching no catalog row still contributes exactly
one row, with NULL `song_id` and `artist_id`. -/
theorem songplays_left_join_cardinality (tz : Int) (events : List LogRecord)
    (songs : List SongRecord)
    (h : ∀ e ∈ filterNextSong events, (songs.filter (song_match e)).length ≤ 1) :
    (songplays_table tz events songs).length = (filterNextSong events).length
  ∧ (∀ e ∈ filterNextSong events, songs.filter (song_match e) = [] →
      songplays_for tz e songs = [mkSongplay tz e none none]) := by
  constructor
  · have hlen : ∀ e ∈ filterNextSong events,
        (songplays_for tz e songs).length = 1 := by
      intro e he
      have hb := h e he
      cases hms : songs.filter (song_match e) with
      | nil => simp [songplays_for, hms]
      | cons s rest =>
        rw [hms] at hb
        have : rest = [] := by
          cases rest with
          | nil => rfl
          | cons t ts => simp at hb
        subst this
        simp [songplays_for, hms]
    rw [songplays_table, List.length_flatMap]
    simp only [Function.comp_def]
    rw [List.map_congr_left hlen]
    simp
  · intro e _ hfil
    simp [songplays_for, hfil]

/-- Witness for the amended C1 at a one-event, one-match input. -/
theorem songplays_left_join_cardinality_witness :
    (songplays_table 0 [evNext] [songX1]).length
      = (filterNextSong [evNext]).length :=
  (songplays_left_join_cardinality 0 [evNext] [songX1] (by decide)).1

/-- C8: the input path patterns are the fixed literals appended to the
input root — identical for every root, so not configurable from the entry
point — and the log transform re-reads the song catalog with exactly the
pattern the song transform used, as a second independent read: the job's
read trace at the entry point's wired root contains the song pattern
twice. -/
theorem input_read_paths_fixed (fsS : String → List SongRecord)
    (fsL : String → List LogRecord) (tz : Int)
    (input_data output_data : String) (st : Storage) :
    (process_song_data fsS input_data output_data st).1
        = [input_data ++ "song_data/A/*/*/*.json"]
  ∧ (process_log_data fsS fsL tz input_data output_data st).1
        = [input_data ++ "log_data/2018/11/*.json",
           input_data ++ "song_data/A/*/*/*.json"]
  ∧ (run_job fsS fsL tz input_data output_data st).1
        = [input_data ++ "song_data/A/*/*/*.json",
           input_data ++ "log_data/2018/11/*.json",
           input_data ++ "song_data/A/*/*/*.json"]
  ∧ (run_job fsS fsL tz main_input_data main_output_data st).1
        = ["s3a://udacity-dend/song_data/A/*/*/*.json",
           "s3a://udacity-dend/log_data/2018/11/*.json",
           "s3a://udacity-dend/song_data/A/*/*/*.json"]
  ∧ (run_job fsS fsL tz main_input_data main_output_data st).1.count
        "s3a://udacity-dend/song_data/A/*/*/*.json" = 2 := by
  refine ⟨rfl, rfl, rfl, rfl, rfl⟩

/-- C5: every write uses overwrite mode, so running the whole job a second
time against unchanged input replaces the first run's output in full — the
storage after two runs equals the storage after one run at every path. -/
theorem run_job_overwrite_idempotent (fsS : String → List SongRecord)
    (fsL : String → List LogRecord) (tz : Int)
    (input_data output_data : String) (st : Storage) :
    ∀ p, (run_job fsS fsL tz input_data output_data
            (run_job fsS fsL tz input_data output_data st).2).2 p
        = (run_job fsS fsL tz input_data output_data st).2 p := by
  intro p
  simp only [run_job, process_song_data, process_log_data, write_parquet]
  by_cases h1 : p = output_data ++ "songplays/" <;>
  by_cases h2 : p = output_data ++ "timetables/" <;>
  by_cases h3 : p = output_data ++ "userstables/" <;>
  by_cases h4 : p = output_data ++ "artiststables/" <;>
  by_cases h5 : p = output_data ++ "songstables/" <;>
  simp [h1, h2, h3, h4, h5]

/-- C6: configuration loading fails with a ConfigError whenever the file is
missing or either required key is absent; on success it sets exactly the
two credential variables (all other keys of the environment are
untouched); and a ConfigError aborts startup before any engine session is
created. -/
theorem config_loading_contract (file : Option ConfigParser) (env : Env)
    (st : ProcState) :
    (file = none → module_init file env = .error (.noSection "AWS"))
  ∧ (∀ cfg : ConfigParser, file = some cfg →
        cfg.sections.lookup "AWS" = none →
        module_init file env = .error (.noSection "AWS"))
  ∧ (∀ (cfg : ConfigParser) (kvs : List (String × String)),
        file = some cfg → cfg.sections.lookup "AWS" = some kvs →
        kvs.lookup "AWS_ACCESS_KEY_ID" = none →
        module_init file env = .error (.noOption "AWS" "AWS_ACCESS_KEY_ID"))
  ∧ (∀ (cfg : ConfigParser) (kvs : List (String × String)) (ak : String),
        file = some cfg → cfg.sections.lookup "AWS" = some kvs →
        kvs.lookup "AWS_ACCESS_KEY_ID" = some ak →
        kvs.lookup "AWS_SECRET_ACCESS_KEY" = none →
        module_init file env = .error (.noOption "AWS" "AWS_SECRET_ACCESS_KEY"))
  ∧ (∀ (cfg : ConfigParser) (kvs : List (String × String)) (ak sk : String),
        file = some cfg → cfg.sections.lookup "AWS" = some kvs →
        kvs.lookup "AWS_ACCESS_KEY_ID" = some ak →
        kvs.lookup "AWS_SECRET_ACCESS_KEY" = some sk →
        module_init file env
          = .ok (setEnv (setEnv env "AWS_ACCESS_KEY_ID" ak)
              "AWS_SECRET_ACCESS_KEY" sk)
        ∧ setEnv (setEnv env "AWS_ACCESS_KEY_ID" ak)
            "AWS_SECRET_ACCESS_KEY" sk "AWS_ACCESS_KEY_ID" = some ak
        ∧ setEnv (setEnv env "AWS_ACCESS_KEY_ID" ak)
            "AWS_SECRET_ACCESS_KEY" sk "AWS_SECRET_ACCESS_KEY" = some sk
        ∧ ∀ k, k ≠ "AWS_ACCESS_KEY_ID" → k ≠ "AWS_SECRET_ACCESS_KEY" →
            setEnv (setEnv env "AWS_ACCESS_KEY_ID" ak)
              "AWS_SECRET_ACCESS_KEY" sk k = env k)
  ∧ (∀ e : ConfigError, module_init file st.env = .error e →
        program_startup file st = .error e) := by
  refine ⟨?_, ?_, ?_, ?_, ?_, ?_⟩
  · rintro rfl
    rfl
  · rintro cfg rfl hsec
    simp only [module_init, configRead, configGet, Option.getD, hsec]
    rfl
  · rintro cfg kvs rfl hsec hopt
    simp only [module_init, configRead, configGet, Option.getD, hsec, hopt]
    rfl
  · rintro cfg kvs ak rfl hsec h1 h2
    simp only [module_init, configRead, configGet, Option.getD, hsec, h1, h2]
    rfl
  · rintro cfg kvs ak sk rfl hsec h1 h2
    refine ⟨by
      simp only [module_init, configRead, configGet, Option.getD, hsec, h1, h2]
      rfl,
      by simp [setEnv], by simp [setEnv], ?_⟩
    intro k hk1 hk2
    simp [setEnv, hk1, hk2]
  · intro e he
    simp [program_startup, he]

/-- Witness for C6: a concrete full configuration file loads successfully
and yields the expected environment. -/
theorem config_loading_contract_witness :
    module_init (some cfgFull) emptyEnv
      = .ok (setEnv (setEnv emptyEnv "AWS_ACCESS_KEY_ID" "AKIA")
          "AWS_SECRET_ACCESS_KEY" "SECRET") :=
  ((config_loading_contract (some cfgFull) emptyEnv
      ⟨emptyEnv, 0⟩).2.2.2.2.1 cfgFull
    [("AWS_ACCESS_KEY_ID", "AKIA"), ("AWS_SECRET_ACCESS_KEY", "SECRET")]
    "AKIA" "SECRET" rfl (by decide) (by decide) (by decide)).1
